import Mathlib

/-!
Verification of the pochi repository's specified behavior against a shallow
embedding of its Python source.

Modelling conventions:
- Python strings that need structural reasoning are embedded as lists of
  characters (`PyStr := List Char`); joining with a separator is
  `List.intercalate`, and Python's `str.strip()` is `pyStrip`.
- Python dicts (which preserve insertion order) are embedded as association
  lists: updating an existing key keeps its position, inserting a new key
  appends at the end, and `pop` removes the binding (`aset`, `aerase`,
  `alookup`).
- Float-valued clocks are embedded as rationals: the code only adds a window
  to the current time and compares; no float rounding is relevant.
-/

/-! ## Small Python-semantics helpers -/

/-- Python strings modelled as lists of characters. -/
abbrev PyStr := List Char

/-- Lookup in an association list (first binding wins, as in a dict). -/
def alookup {κ α : Type} [DecidableEq κ] : List (κ × α) → κ → Option α
  | [], _ => none
  | (k, v) :: rest, key => if k = key then some v else alookup rest key

/-- Dict assignment: update an existing key in place, else append at the end
(Python dicts preserve insertion order). -/
def aset {κ α : Type} [DecidableEq κ] : List (κ × α) → κ → α → List (κ × α)
  | [], key, v => [(key, v)]
  | (k, w) :: rest, key, v =>
    if k = key then (key, v) :: rest else (k, w) :: aset rest key v

/-- Dict pop: remove the binding for a key (no-op when absent). -/
def aerase {κ α : Type} [DecidableEq κ] : List (κ × α) → κ → List (κ × α)
  | [], _ => []
  | (k, w) :: rest, key => if k = key then rest else (k, w) :: aerase rest key

/-- Whitespace characters removed by Python's default str.strip(). -/
def pyIsSpace (c : Char) : Bool :=
  c = ' ' || c = '\t' || c = '\n' || c = '\r' || c = '\x0b' || c = '\x0c'

/-- Python str.strip(): drop whitespace from both ends. -/
def pyStrip (cs : PyStr) : PyStr :=
  ((cs.dropWhile pyIsSpace).reverse.dropWhile pyIsSpace).reverse

/-! ## Workspace bridge: the topic debouncer (workspace/bridge.py) -/

/-- Telegram topic id: message_thread_id, or none for the General topic. -/
abbrev TopicId := Option Int

/-- The raw Telegram message dict, reduced to the fields the debouncer reads:
message_id, text (the .get default of the absent case folded into the field),
and reply_to_message (an opaque dict, modelled by an identifier). -/
structure TgMsg where
  message_id : Int
  text : PyStr
  reply_to_message : Option Nat
deriving DecidableEq

/-- PendingMessage from workspace/bridge.py: a message waiting in the
debounce queue. -/
structure PendingMessage where
  message_id : Int
  text : PyStr
  timestamp : ℚ
  reply_to : Option Nat
  raw_message : TgMsg
deriving DecidableEq

/-- MessageBatch from workspace/bridge.py: combined messages ready for
dispatch. -/
structure MessageBatch where
  message_ids : List Int
  combined_text : PyStr
  first_reply_to : Option Nat
  last_message_id : Int
  topic_id : TopicId
  raw_messages : List TgMsg
deriving DecidableEq

/-- TopicDebouncer state: the per-topic pending lists and deadlines, plus the
configured window. The injected clock is modelled by passing the current
time to each operation. -/
structure TopicDebouncer where
  window_ms : ℚ
  pending : List (TopicId × List PendingMessage)
  deadlines : List (TopicId × ℚ)
deriving DecidableEq

namespace TopicDebouncer

/-- window_s as computed in __init__: window_ms / 1000. -/
def window_s (d : TopicDebouncer) : ℚ := d.window_ms / 1000

/-- TopicDebouncer._is_slash_command: text.strip().startswith("/"). -/
def is_slash_command (text : PyStr) : Bool :=
  ['/'].isPrefixOf (pyStrip text)

/-- TopicDebouncer._combine: build a MessageBatch from a topic's pending
messages. -/
def combine (topic_id : TopicId) (messages : List PendingMessage) : MessageBatch :=
  { message_ids := messages.map (·.message_id)
    combined_text := List.intercalate ['\n'] (messages.map (·.text))
    first_reply_to := match messages with
      | [] => none
      | m :: _ => m.reply_to
    last_message_id := match messages.getLast? with
      | some m => m.message_id
      | none => 0
    topic_id := topic_id
    raw_messages := messages.map (·.raw_message) }

/-- TopicDebouncer._flush_topic: pop the topic's pending list and deadline
and combine the messages into a batch. -/
def flush_topic (d : TopicDebouncer) (topic_id : TopicId) :
    MessageBatch × TopicDebouncer :=
  let messages := (alookup d.pending topic_id).getD []
  (combine topic_id messages,
    { d with
      pending := aerase d.pending topic_id
      deadlines := aerase d.deadlines topic_id })

/-- TopicDebouncer.add_message: slash commands flush any pending batch and
come back as their own single-message batch; other messages are appended to
the topic's pending list and the topic's deadline is reset to now + window.
Returns the ready batches together with the updated state. -/
def add_message (d : TopicDebouncer) (topic_id : TopicId) (msg : TgMsg)
    (now : ℚ) : List MessageBatch × TopicDebouncer :=
  let text := msg.text
  if is_slash_command text then
    let slashBatch : MessageBatch :=
      { message_ids := [msg.message_id]
        combined_text := text
        first_reply_to := msg.reply_to_message
        last_message_id := msg.message_id
        topic_id := topic_id
        raw_messages := [msg] }
    if ((alookup d.pending topic_id).getD []).isEmpty then
      ([slashBatch], d)
    else
      let fl := d.flush_topic topic_id
      ([fl.1, slashBatch], fl.2)
  else
    let pending_msg : PendingMessage :=
      { message_id := msg.message_id
        text := text
        timestamp := now
        reply_to := msg.reply_to_message
        raw_message := msg }
    ([],
      { d with
        pending := aset d.pending topic_id
          ((alookup d.pending topic_id).getD [] ++ [pending_msg])
        deadlines := aset d.deadlines topic_id (now + d.window_s) })

/-- The loop body of TopicDebouncer.check_expired: flush each expired topic
that still has a non-empty pending list, in deadline-dict order. -/
def check_expired_go (d : TopicDebouncer) :
    List TopicId → List MessageBatch × TopicDebouncer
  | [] => ([], d)
  | t :: rest =>
    if ((alookup d.pending t).getD []).isEmpty then
      check_expired_go d rest
    else
      let fl := d.flush_topic t
      let tail := check_expired_go fl.2 rest
      (fl.1 :: tail.1, tail.2)

/-- TopicDebouncer.check_expired: collect the topics whose deadline has
passed (now >= deadline) and flush those with pending messages. -/
def check_expired (d : TopicDebouncer) (now : ℚ) :
    List MessageBatch × TopicDebouncer :=
  check_expired_go d ((d.deadlines.filter (fun p => p.2 ≤ now)).map Prod.fst)

end TopicDebouncer

/-! ## Association-list dict lemmas -/

theorem alookup_aerase_ne {κ α : Type} [DecidableEq κ]
    (l : List (κ × α)) (k k' : κ) (h : k' ≠ k) :
    alookup (aerase l k') k = alookup l k := by
  induction l with
  | nil => rfl
  | cons hd tl ih =>
    obtain ⟨a, b⟩ := hd
    by_cases ha : a = k'
    · subst ha
      simp [aerase, alookup, if_neg h]
    · simp [aerase, alookup, if_neg ha]
      by_cases hk : a = k
      · simp [alookup, if_pos hk]
      · simp [alookup, if_neg hk, ih]

theorem alookup_mem {κ α : Type} [DecidableEq κ]
    {l : List (κ × α)} {k : κ} {v : α} (h : alookup l k = some v) :
    (k, v) ∈ l := by
  induction l with
  | nil => simp [alookup] at h
  | cons hd tl ih =>
    obtain ⟨a, b⟩ := hd
    by_cases ha : a = k
    · subst ha
      simp [alookup] at h
      simp [h]
    · simp [alookup, if_neg ha] at h
      exact List.mem_cons_of_mem _ (ih h)

/-! ## Python strip lemmas -/

theorem dropWhile_append_getLast? {p : Char → Bool} (l : PyStr) (a : Char)
    (ha : p a = false) :
    (List.dropWhile p (l ++ [a])).getLast? = some a := by
  induction l with
  | nil => simp [List.dropWhile, ha]
  | cons x xs ih =>
    by_cases hx : p x = true
    · simpa [List.dropWhile, hx] using ih
    · simp only [Bool.not_eq_true] at hx
      rw [List.cons_append, List.dropWhile_cons_of_neg (by simp [hx])]
      show ((x :: xs) ++ [a]).getLast? = some a
      rw [List.getLast?_concat]

/-- A text whose first character is a slash is classified as a slash command
(strip removes no leading slash, and keeps the text non-empty). -/
theorem is_slash_command_of_head (r : PyStr) :
    TopicDebouncer.is_slash_command ('/' :: r) = true := by
  unfold TopicDebouncer.is_slash_command pyStrip
  rw [List.dropWhile_cons_of_neg (by decide)]
  have h1 : ('/' :: r).reverse = r.reverse ++ ['/'] := by simp
  rw [h1]
  have h2 := dropWhile_append_getLast? (p := pyIsSpace) r.reverse '/' (by decide)
  rw [← List.head?_reverse] at h2
  cases hrev : (List.dropWhile pyIsSpace (r.reverse ++ ['/'])).reverse with
  | nil => rw [hrev] at h2; simp at h2
  | cons c cs =>
    rw [hrev] at h2
    simp at h2
    simp [List.isPrefixOf, h2]

/-- The single-message batch built for a slash command in add_message. -/
def slash_batch (topic_id : TopicId) (msg : TgMsg) : MessageBatch :=
  { message_ids := [msg.message_id]
    combined_text := msg.text
    first_reply_to := msg.reply_to_message
    last_message_id := msg.message_id
    topic_id := topic_id
    raw_messages := [msg] }

/-- C1: for a topic and a message whose text begins with a slash, add_message
returns first a batch of exactly the pending messages (when there are any)
and then a separate single-message batch holding only the slash message; a
slash message is never merged with any other message. -/
theorem add_message_slash_bypass (d : TopicDebouncer) (topic_id : TopicId)
    (msg : TgMsg) (now : ℚ) (r : PyStr) (hs : msg.text = '/' :: r) :
    (((alookup d.pending topic_id).getD []) ≠ [] →
      (d.add_message topic_id msg now).1 =
        [TopicDebouncer.combine topic_id ((alookup d.pending topic_id).getD []),
         slash_batch topic_id msg]) ∧
    (((alookup d.pending topic_id).getD []) = [] →
      (d.add_message topic_id msg now).1 = [slash_batch topic_id msg]) := by
  have hsl : TopicDebouncer.is_slash_command msg.text = true := by
    rw [hs]; exact is_slash_command_of_head r
  constructor
  · intro hne
    unfold TopicDebouncer.add_message
    simp only [hsl, if_true]
    rw [if_neg (by simpa [List.isEmpty_iff] using hne)]
    simp [TopicDebouncer.flush_topic, slash_batch]
  · intro hemp
    unfold TopicDebouncer.add_message
    simp only [hsl, if_true]
    rw [if_pos (by simpa [List.isEmpty_iff] using hemp)]
    simp [slash_batch]

/-- Concrete sample pending message used by the witnesses. -/
def samplePending : PendingMessage :=
  { message_id := 1
    text := ['h', 'i']
    timestamp := 0
    reply_to := some 41
    raw_message := { message_id := 1, text := ['h', 'i'], reply_to_message := some 41 } }

/-- Concrete sample slash-command message used by the witnesses. -/
def sampleSlashMsg : TgMsg :=
  { message_id := 2, text := ['/', 'c'], reply_to_message := none }

/-- Concrete debouncer state with one pending message on topic 7. -/
def sampleDebouncer : TopicDebouncer :=
  { window_ms := 200
    pending := [(some 7, [samplePending])]
    deadlines := [(some 7, 3)] }

/-- Witness for C1 at a concrete state: topic 7 has one pending message and
a slash message arrives. -/
theorem add_message_slash_bypass_witness :
    (sampleDebouncer.add_message (some 7) sampleSlashMsg 5).1 =
      [TopicDebouncer.combine (some 7) [samplePending],
       slash_batch (some 7) sampleSlashMsg] := by
  have h := (add_message_slash_bypass sampleDebouncer (some 7) sampleSlashMsg 5
    ['c'] rfl).1 (by decide)
  simpa [sampleDebouncer, alookup] using h

/-- Every expired topic with a pending list flushes to a batch in the output
of the check_expired loop. -/
theorem check_expired_go_mem (tids : List TopicId) (d : TopicDebouncer)
    {tid : TopicId} {msgs : List PendingMessage}
    (hmem : tid ∈ tids) (hp : alookup d.pending tid = some msgs)
    (hne : msgs ≠ []) :
    TopicDebouncer.combine tid msgs ∈ (TopicDebouncer.check_expired_go d tids).1 := by
  induction tids generalizing d with
  | nil => simp at hmem
  | cons t rest ih =>
    by_cases htt : t = tid
    · subst htt
      unfold TopicDebouncer.check_expired_go
      rw [hp]
      rw [if_neg (by simpa [List.isEmpty_iff] using hne)]
      simp [TopicDebouncer.flush_topic, hp]
    · have hrest : tid ∈ rest := by
        rcases List.mem_cons.mp hmem with h | h
        · exact absurd h.symm htt
        · exact h
      unfold TopicDebouncer.check_expired_go
      by_cases hev : ((alookup d.pending t).getD []).isEmpty = true
      · rw [if_pos hev]
        exact ih _ hrest hp
      · rw [if_neg hev]
        have hp' : alookup (aerase d.pending t) tid = some msgs := by
          rw [alookup_aerase_ne _ _ _ htt]; exact hp
        exact List.mem_cons_of_mem _
          (ih { d with pending := aerase d.pending t,
                       deadlines := aerase d.deadlines t } hrest hp')

/-- C2: for every topic whose deadline has expired with a non-empty pending
list, check_expired emits a batch whose combined_text joins the pending
texts with a single newline in arrival order, whose message_ids are the
pending ids in arrival order, whose last_message_id is the last pending id,
and whose first_reply_to is the first pending message's reply_to. -/
theorem check_expired_batch_shape (d : TopicDebouncer) (now : ℚ)
    (tid : TopicId) (t : ℚ) (msgs : List PendingMessage)
    (hd : alookup d.deadlines tid = some t) (ht : t ≤ now)
    (hp : alookup d.pending tid = some msgs) (hne : msgs ≠ []) :
    ∃ b ∈ (d.check_expired now).1,
      b.topic_id = tid ∧
      b.combined_text = List.intercalate ['\n'] (msgs.map PendingMessage.text) ∧
      b.message_ids = msgs.map PendingMessage.message_id ∧
      b.last_message_id = (msgs.getLast hne).message_id ∧
      b.first_reply_to = (msgs.head hne).reply_to := by
  refine ⟨TopicDebouncer.combine tid msgs, ?_, rfl, rfl, rfl, ?_, ?_⟩
  · unfold TopicDebouncer.check_expired
    apply check_expired_go_mem _ _ _ hp hne
    have hmemf : (tid, t) ∈ d.deadlines.filter (fun p => p.2 ≤ now) := by
      rw [List.mem_filter]
      exact ⟨alookup_mem hd, by simpa using ht⟩
    exact List.mem_map_of_mem Prod.fst hmemf
  · show (match msgs.getLast? with
      | some m => m.message_id
      | none => 0) = (msgs.getLast hne).message_id
    rw [List.getLast?_eq_getLast msgs hne]
  · cases msgs with
    | nil => exact absurd rfl hne
    | cons m ms => rfl

/-- Witness for C2 at a concrete state: topic 7's deadline 3 has passed at
time 5 and its single pending message is flushed. -/
theorem check_expired_batch_shape_witness :
    ∃ b ∈ (sampleDebouncer.check_expired 5).1,
      b.topic_id = some 7 ∧
      b.combined_text = List.intercalate ['\n'] ([samplePending].map PendingMessage.text) ∧
      b.message_ids = [samplePending].map PendingMessage.message_id ∧
      b.last_message_id = ([samplePending].getLast (by decide)).message_id ∧
      b.first_reply_to = ([samplePending].head (by decide)).reply_to :=
  check_expired_batch_shape sampleDebouncer 5 (some 7) 3 [samplePending]
    (by decide) (by norm_num) (by decide) (by decide)

/-! ## Transport runtime: message and engine resolution (transport_runtime.py) -/

/-- Python str.split(sep): split on every occurrence of a separator
character; the empty string yields one empty part. -/
def pySplit (sep : Char) : PyStr → List PyStr
  | [] => [[]]
  | c :: rest =>
    match pySplit sep rest with
    | [] => [[c]]
    | g :: gs => if c = sep then [] :: g :: gs else (c :: g) :: gs

/-- EngineId from model.py: an opaque identifier string. -/
abbrev EngineId := String

/-- ResumeToken from model.py: the engine that produced the session plus the
opaque session value. -/
structure ResumeToken where
  engine : EngineId
  value : String
deriving DecidableEq

/-- The AutoRouter surface that TransportRuntime actually calls
(default_engine, is_resume_line, resolve_resume); the router is injected
into the runtime, so it is embedded as this record of functions. -/
structure AutoRouter where
  default_engine : EngineId
  is_resume_line : PyStr → Bool
  resolve_resume : PyStr → Option PyStr → Option ResumeToken

/-- ResolvedMessage from transport_runtime.py, reduced to the fields
resolve_message populates. -/
structure ResolvedMessage where
  prompt : PyStr
  resume_token : Option ResumeToken
deriving DecidableEq

/-- TransportRuntime: the facade holding the router. -/
structure TransportRuntime where
  router : AutoRouter

namespace TransportRuntime

/-- TransportRuntime.resolve_engine: resume token's engine first, then the
explicit override, then the router's default engine. -/
def resolve_engine (rt : TransportRuntime) (engine_override : Option EngineId)
    (resume_token : Option ResumeToken) : EngineId :=
  match resume_token with
  | some t => t.engine
  | none =>
    match engine_override with
    | some e => e
    | none => rt.router.default_engine

/-- TransportRuntime.resolve_message: extract the resume token, then drop
every line the router recognizes as a resume line, join the rest with
newlines and strip surrounding whitespace. -/
def resolve_message (rt : TransportRuntime) (text : PyStr)
    (reply_text : Option PyStr) : ResolvedMessage :=
  let resume_token := rt.router.resolve_resume text reply_text
  let prompt_lines := (pySplit '\n' text).filter
    (fun line => !(rt.router.is_resume_line line))
  { prompt := pyStrip (List.intercalate ['\n'] prompt_lines)
    resume_token := resume_token }

end TransportRuntime

/-- C4: engine selection precedence in resolve_engine: the resume token's
engine when present, otherwise the explicit override when present,
otherwise the workspace default engine. -/
theorem resolve_engine_precedence (rt : TransportRuntime)
    (engine_override : Option EngineId) (resume_token : Option ResumeToken) :
    rt.resolve_engine engine_override resume_token =
      (resume_token.map ResumeToken.engine).getD
        (engine_override.getD rt.router.default_engine) := by
  cases resume_token <;> cases engine_override <;> rfl

/-- A runtime whose router recognizes every line as a resume line; used to
exhibit that resolve_message can return an empty prompt. -/
def allResumeRuntime : TransportRuntime :=
  { router :=
    { default_engine := "claude"
      is_resume_line := fun _ => true
      resolve_resume := fun _ _ => none } }

/-- C3 counterexample: when every line of the input is recognized as a
resume line, resolve_message returns the empty prompt, not the literal
string continue — the substitution claimed for resolve_message does not
happen there. -/
theorem resolve_message_empty_prompt_counterexample :
    (allResumeRuntime.resolve_message ("claude resume abc".data) none).prompt
      = [] ∧
    (allResumeRuntime.resolve_message ("claude resume abc".data) none).prompt
      ≠ "continue".data := by
  constructor
  · rfl
  · decide

/-- C3 amended: resolve_message removes exactly the lines the router
recognizes as resume lines, joining the remaining lines with newlines and
stripping surrounding whitespace; when every input line is recognized, the
returned prompt is the empty string (no continue substitution). -/
theorem resolve_message_strips_resume_lines (rt : TransportRuntime)
    (text : PyStr) (reply_text : Option PyStr) :
    (rt.resolve_message text reply_text).prompt =
      pyStrip (List.intercalate ['\n'] ((pySplit '\n' text).filter
        (fun line => !(rt.router.is_resume_line line)))) ∧
    ((∀ line ∈ pySplit '\n' text, rt.router.is_resume_line line = true) →
      (rt.resolve_message text reply_text).prompt = []) := by
  refine ⟨rfl, ?_⟩
  intro h
  have hf : (pySplit '\n' text).filter
      (fun line => !(rt.router.is_resume_line line)) = [] := by
    rw [List.filter_eq_nil_iff]
    intro a ha
    simp [h a ha]
  have h1 : (rt.resolve_message text reply_text).prompt =
      pyStrip (List.intercalate ['\n'] ((pySplit '\n' text).filter
        (fun line => !(rt.router.is_resume_line line)))) := rfl
  rw [h1, hf]
  rfl

/-- Witness for C3's amended theorem at a concrete runtime and text. -/
theorem resolve_message_strips_resume_lines_witness :
    (allResumeRuntime.resolve_message ("claude resume abc".data) none).prompt
      = [] :=
  (resolve_message_strips_resume_lines allResumeRuntime
    ("claude resume abc".data) none).2 (fun _ _ => rfl)

/-! ## Progress tracker (progress.py) -/

namespace Model

/-- Action from model.py as read by the progress tracker: the id may be
absent (action.id or "" in the code) and the kind is a string tag. The
name is qualified because Mathlib already declares an Action. -/
structure Action where
  id : Option String
  kind : String
deriving DecidableEq

end Model

/-- ActionState from progress.py: immutable state of a single action. -/
structure ActionState where
  action : Model.Action
  phase : String
  ok : Option Bool
  display_phase : String
  completed : Bool
  first_seen : Nat
  last_update : Nat
deriving DecidableEq

/-- The events note_event matches on: StartedEvent, ActionEvent, and the
catch-all branch for every other event kind. -/
inductive PochiEvent where
  | started (resume : Option ResumeToken)
  | actionEvent (action : Model.Action) (phase : String) (ok : Option Bool)
  | other
deriving DecidableEq

/-- ProgressTracker's mutable fields (engine, resume, action_count, the
actions dict keyed by action id, and the monotonic sequence counter). -/
structure ProgressTracker where
  engine : String
  resume : Option ResumeToken
  action_count : Nat
  actions : List (String × ActionState)
  seq : Nat
deriving DecidableEq

/-- ProgressTracker.note_event: reduce one event into the tracker state and
report whether anything changed. A turn-kind action is ignored, an empty
action id is ignored, a second started phase for an open action displays as
updated, and the upsert bumps the sequence counter (and the action count
for new ids). -/
def ProgressTracker.note_event (tr : ProgressTracker) (ev : PochiEvent) :
    Bool × ProgressTracker :=
  match ev with
  | .started resume => (true, { tr with resume := resume })
  | .actionEvent action phase ok =>
    if action.kind = "turn" then (false, tr)
    else
      let action_id := action.id.getD ""
      if action_id = "" then (false, tr)
      else
        let completed := phase == "completed"
        let existing := alookup tr.actions action_id
        let has_open := match existing with
          | some st => !st.completed
          | none => false
        let is_update := phase == "updated" || (phase == "started" && has_open)
        let display_phase := if is_update && !completed then "updated" else phase
        let seq := tr.seq + 1
        let first_seen := match existing with
          | some st => st.first_seen
          | none => seq
        let action_count := match existing with
          | some _ => tr.action_count
          | none => tr.action_count + 1
        (true,
          { tr with
            action_count := action_count
            seq := seq
            actions := aset tr.actions action_id
              { action := action
                phase := phase
                ok := ok
                display_phase := display_phase
                completed := completed
                first_seen := first_seen
                last_update := seq } })
  | .other => (false, tr)

theorem alookup_aset_self {κ α : Type} [DecidableEq κ]
    (l : List (κ × α)) (k : κ) (v : α) :
    alookup (aset l k v) k = some v := by
  induction l with
  | nil => simp [aset, alookup]
  | cons hd tl ih =>
    obtain ⟨a, b⟩ := hd
    by_cases ha : a = k
    · simp [aset, if_pos ha, alookup]
    · simp [aset, if_neg ha, alookup, if_neg ha, ih]

/-- C5: a turn-kind ActionEvent leaves the tracker unchanged and returns
false; and a started phase arriving while a not-yet-completed ActionState
exists for the same action id stores display_phase updated rather than
started. -/
theorem note_event_turn_and_repeat_start (tr : ProgressTracker)
    (a : Model.Action) (phase : String) (ok : Option Bool) :
    (a.kind = "turn" →
      tr.note_event (.actionEvent a phase ok) = (false, tr)) ∧
    (∀ st : ActionState, a.kind ≠ "turn" → a.id.getD "" ≠ "" →
      alookup tr.actions (a.id.getD "") = some st → st.completed = false →
      phase = "started" →
      ∃ st' : ActionState,
        alookup (tr.note_event (.actionEvent a phase ok)).2.actions
          (a.id.getD "") = some st' ∧
        st'.display_phase = "updated") := by
  constructor
  · intro hk
    simp only [ProgressTracker.note_event]
    rw [if_pos hk]
  · intro st hk hid hlook hcomp hph
    subst hph
    simp only [ProgressTracker.note_event]
    simp only [if_neg hk, if_neg hid, hlook, hcomp]
    exact ⟨_, alookup_aset_self _ _ _, rfl⟩

/-- Concrete tracker with one open action, used by the C5 witness. -/
def sampleTracker : ProgressTracker :=
  { engine := "claude"
    resume := none
    action_count := 1
    actions := [("a1",
      { action := { id := some "a1", kind := "tool" }
        phase := "started"
        ok := none
        display_phase := "started"
        completed := false
        first_seen := 1
        last_update := 1 })]
    seq := 1 }

/-- Witness for C5 at a concrete tracker: a second started event for the
open action a1 is stored with display_phase updated. -/
theorem note_event_turn_and_repeat_start_witness :
    ∃ st' : ActionState,
      alookup (sampleTracker.note_event
        (.actionEvent { id := some "a1", kind := "tool" } "started" none)).2.actions
        "a1" = some st' ∧
      st'.display_phase = "updated" :=
  (note_event_turn_and_repeat_start sampleTracker
    { id := some "a1", kind := "tool" } "started" none).2
    { action := { id := some "a1", kind := "tool" }
      phase := "started"
      ok := none
      display_phase := "started"
      completed := false
      first_seen := 1
      last_update := 1 }
    (by decide) (by decide) (by decide) rfl rfl

/-! ## Plugin loading: transport backends (plugins.py) -/

/-- PluginEntry from plugins.py: a discovered entrypoint (the entrypoint
object itself is opaque; its load outcome is passed to the loader
separately). -/
structure PluginEntry where
  id : String
  kind : String
  distribution : Option String
deriving DecidableEq

/-- The object returned by entry.entrypoint.load() for a transport plugin,
duck-typed: the set of attribute names it exposes, and the value of its id
attribute (meaningful only when the id attribute is present). -/
structure TransportObj where
  attrs : List String
  id : String
deriving DecidableEq

/-- LoadedPlugin from plugins.py. -/
structure LoadedPlugin where
  id : String
  kind : String
  backend : Option TransportObj
  distribution : Option String
  error : Option String
deriving DecidableEq

/-- The _load_transport_backend function: a load failure, a missing id or
check_setup attribute, or an id mismatch each reject the plugin with an
error; anything else is accepted. -/
def load_transport_backend (entry : PluginEntry)
    (load_result : Except String TransportObj) : LoadedPlugin :=
  match load_result with
  | .error exc =>
    { id := entry.id, kind := entry.kind, backend := none
      distribution := entry.distribution
      error := some ("Failed to load: " ++ exc) }
  | .ok backend =>
    if !(backend.attrs.contains "id") || !(backend.attrs.contains "check_setup") then
      { id := entry.id, kind := entry.kind, backend := none
        distribution := entry.distribution
        error := some "Does not implement TransportBackend protocol" }
    else if backend.id ≠ entry.id then
      { id := entry.id, kind := entry.kind, backend := none
        distribution := entry.distribution
        error := some ("ID mismatch: entrypoint " ++ entry.id ++
          " != backend.id " ++ backend.id) }
    else
      { id := entry.id, kind := entry.kind, backend := some backend
        distribution := entry.distribution
        error := none }

/-- A transport object exposing only id and check_setup: no build_and_run
and no lock_token. -/
def partialTransportObj : TransportObj :=
  { attrs := ["id", "check_setup"], id := "tg" }

/-- The matching entry for the partial transport object. -/
def sampleTransportEntry : PluginEntry :=
  { id := "tg", kind := "transport", distribution := none }

/-- C6 counterexample: a transport object lacking build_and_run and
lock_token is accepted by the loader (no error, backend set), contradicting
the claim that loading is rejected unless those attributes are exposed. -/
theorem load_transport_backend_counterexample :
    (load_transport_backend sampleTransportEntry
      (.ok partialTransportObj)).error = none ∧
    (load_transport_backend sampleTransportEntry
      (.ok partialTransportObj)).backend = some partialTransportObj ∧
    partialTransportObj.attrs.contains "build_and_run" = false ∧
    partialTransportObj.attrs.contains "lock_token" = false := by
  decide

/-- C6 amended: a transport plugin load is rejected (non-None error, and a
backend is attached exactly when there is no error) unless the loaded
object exposes the attributes id and check_setup and its id equals the
entrypoint name; build_and_run and lock_token are not checked at load
time. -/
theorem load_transport_backend_acceptance (entry : PluginEntry)
    (load_result : Except String TransportObj) :
    ((load_transport_backend entry load_result).error = none ↔
      (∃ b : TransportObj, load_result = Except.ok b ∧
        b.attrs.contains "id" = true ∧
        b.attrs.contains "check_setup" = true ∧
        b.id = entry.id)) ∧
    ((load_transport_backend entry load_result).error = none ↔
      (load_transport_backend entry load_result).backend ≠ none) := by
  cases load_result with
  | error e => exact ⟨by simp [load_transport_backend], by simp [load_transport_backend]⟩
  | ok b =>
    by_cases hc : (!(b.attrs.contains "id") || !(b.attrs.contains "check_setup")) = true
    · have hrej : load_transport_backend entry (Except.ok b) =
        { id := entry.id, kind := entry.kind, backend := none
          distribution := entry.distribution
          error := some "Does not implement TransportBackend protocol" } := by
        simp only [load_transport_backend, if_pos hc]
      rw [hrej]
      simp only [Bool.or_eq_true, Bool.not_eq_true'] at hc
      constructor
      · simp only [false_iff]
        constructor
        · intro h; cases h
        · rintro ⟨b', hb', hid, hcs, _⟩
          cases hb'
          rcases hc with hc | hc
          · rw [hc] at hid; cases hid
          · rw [hc] at hcs; cases hcs
      · simp
    · by_cases h2 : b.id = entry.id
      · have hacc : load_transport_backend entry (Except.ok b) =
          { id := entry.id, kind := entry.kind, backend := some b
            distribution := entry.distribution, error := none } := by
          simp only [load_transport_backend, if_neg hc]
          rw [if_neg (show ¬(b.id ≠ entry.id) from by simpa using h2)]
        rw [hacc]
        simp only [Bool.or_eq_true, Bool.not_eq_true'] at hc
        push_neg at hc
        constructor
        · simp only [true_iff]
          refine ⟨b, rfl, ?_, ?_, h2⟩
          · cases hb1 : b.attrs.contains "id"
            · exact absurd hb1 hc.1
            · rfl
          · cases hb2 : b.attrs.contains "check_setup"
            · exact absurd hb2 hc.2
            · rfl
        · simp
      · have hrej : load_transport_backend entry (Except.ok b) =
          { id := entry.id, kind := entry.kind, backend := none
            distribution := entry.distribution
            error := some ("ID mismatch: entrypoint " ++ entry.id ++
              " != backend.id " ++ b.id) } := by
          simp only [load_transport_backend, if_neg hc]
          rw [if_pos h2]
        rw [hrej]
        constructor
        · simp only [false_iff]
          constructor
          · intro h; cases h
          · rintro ⟨b', hb', _, _, hbid⟩
            cases hb'
            exact absurd hbid h2
        · simp

/-! ## Plugin ID validation (ids.py) -/

/-- One character of the regex class [a-z0-9_]. -/
def isIdChar (c : Char) : Bool :=
  ('a' ≤ c && c ≤ 'z') || ('0' ≤ c && c ≤ '9') || c = '_'

/-- bool(ID_PATTERN.match(s)) for ID_PATTERN compiled from
the pattern anchored-[a-z0-9_]-1-to-32 under Python re semantics: re.match
anchors at the start, the repetition backtracks over k in 1..32, and the
dollar matches at the end of the string or just before a newline that ends
the string. -/
def is_valid_id (cs : PyStr) : Bool :=
  (List.range' 1 32).any fun k =>
    decide (k ≤ cs.length) && (cs.take k).all isIdChar &&
      (decide (k = cs.length) ||
        (decide (k + 1 = cs.length) && decide (cs.getLast? = some '\n')))

/-- RESERVED_ENGINE_IDS from ids.py. -/
def RESERVED_ENGINE_IDS : List PyStr :=
  ["cancel".data, "help".data, "init".data, "plugins".data, "info".data,
   "setup".data]

/-- RESERVED_COMMAND_IDS from ids.py. -/
def RESERVED_COMMAND_IDS : List PyStr :=
  ["cancel".data, "help".data, "clone".data, "create".data, "add".data,
   "list".data, "remove".data, "status".data, "engine".data, "ralph".data]

/-- RESERVED_TRANSPORT_IDS from ids.py (currently empty). -/
def RESERVED_TRANSPORT_IDS : List PyStr := []

/-- is_reserved_id from ids.py. -/
def is_reserved_id (plugin_id : PyStr) (kind : String) : Bool :=
  if kind = "engine" then decide (plugin_id ∈ RESERVED_ENGINE_IDS)
  else if kind = "transport" then decide (plugin_id ∈ RESERVED_TRANSPORT_IDS)
  else if kind = "command" then decide (plugin_id ∈ RESERVED_COMMAND_IDS)
  else false

/-- validate_plugin_id from ids.py: pattern check first, then the reserved
set; context is folded into the error message as in the source. -/
def validate_plugin_id (plugin_id : PyStr) (kind : String) (context : String) :
    Bool × Option String :=
  let ctx := if context ≠ "" then " (" ++ context ++ ")" else ""
  if !is_valid_id plugin_id then
    (false, some ("Invalid " ++ kind ++ " ID '" ++ String.mk plugin_id ++ "'"
      ++ ctx ++ ": must match pattern ^[a-z0-9_]\x7b1,32\x7d$"))
  else if is_reserved_id plugin_id kind then
    (false, some ("Reserved " ++ kind ++ " ID '" ++ String.mk plugin_id ++ "'"
      ++ ctx ++ ": conflicts with built-in"))
  else
    (true, none)

/-- The claim's reading of the ID pattern: a full anchored match, i.e. one
to 32 characters, all of them in [a-z0-9_]. -/
def claimMatchesIdPattern (cs : PyStr) : Bool :=
  decide (1 ≤ cs.length) && decide (cs.length ≤ 32) && cs.all isIdChar

/-- C9 counterexample: the string abc followed by a newline is accepted by
validate_plugin_id (Python's dollar matches before a trailing newline) even
though it does not match the anchored pattern and is not reserved, refuting
accepts-exactly-when-the-pattern-matches. -/
theorem validate_plugin_id_counterexample :
    (validate_plugin_id ('a' :: 'b' :: 'c' :: '\n' :: []) "engine" "").1 = true ∧
    claimMatchesIdPattern ('a' :: 'b' :: 'c' :: '\n' :: []) = false := by
  decide

/-- Python dollar semantics of the ID regex, characterized: either the whole
string matches the anchored pattern, or the string ends in one newline and
everything before it matches. -/
theorem is_valid_id_iff (cs : PyStr) :
    is_valid_id cs = true ↔
      (claimMatchesIdPattern cs = true ∨
        (cs.getLast? = some '\n' ∧ claimMatchesIdPattern cs.dropLast = true)) := by
  unfold is_valid_id claimMatchesIdPattern
  rw [List.any_eq_true]
  constructor
  · rintro ⟨k, hkmem, hk⟩
    rw [List.mem_range'_1] at hkmem
    simp only [Bool.and_eq_true, Bool.or_eq_true, decide_eq_true_eq] at hk
    obtain ⟨⟨hkle, hall⟩, hend⟩ := hk
    rcases hend with hlen | ⟨hlen, hlast⟩
    · left
      subst hlen
      rw [List.take_length] at hall
      simp only [Bool.and_eq_true, decide_eq_true_eq]
      exact ⟨⟨hkmem.1, by omega⟩, hall⟩
    · right
      refine ⟨hlast, ?_⟩
      have hdt : cs.dropLast = cs.take k := by
        rw [List.dropLast_eq_take, ← hlen]
        simp
      simp only [Bool.and_eq_true, decide_eq_true_eq, List.length_dropLast]
      exact ⟨⟨by omega, by omega⟩, by rw [hdt]; exact hall⟩
  · rintro (h | ⟨hlast, h⟩)
    · simp only [Bool.and_eq_true, decide_eq_true_eq] at h
      refine ⟨cs.length, ?_, ?_⟩
      · rw [List.mem_range'_1]
        exact ⟨h.1.1, by omega⟩
      · simp only [Bool.and_eq_true, Bool.or_eq_true, decide_eq_true_eq]
        exact ⟨⟨Nat.le_refl _, by rw [List.take_length]; exact h.2⟩, Or.inl trivial⟩
    · simp only [Bool.and_eq_true, decide_eq_true_eq, List.length_dropLast] at h
      have hne : cs ≠ [] := by
        intro hnil
        rw [hnil] at hlast
        cases hlast
      have hpos : 1 ≤ cs.length := by
        cases cs with
        | nil => exact absurd rfl hne
        | cons c cs' => simp
      refine ⟨cs.length - 1, ?_, ?_⟩
      · rw [List.mem_range'_1]
        exact ⟨h.1.1, by omega⟩
      · simp only [Bool.and_eq_true, Bool.or_eq_true, decide_eq_true_eq]
        refine ⟨⟨by omega, ?_⟩, Or.inr ⟨by omega, hlast⟩⟩
        rw [← List.dropLast_eq_take]
        exact h.2

/-- C9 amended: for kind engine, validate_plugin_id accepts exactly the
strings that match the anchored pattern after discounting at most one
trailing newline (which Python's dollar permits) and that are not in the
reserved engine set; in every other case the error message is non-None. -/
theorem validate_plugin_id_engine_acceptance (cs : PyStr) :
    ((validate_plugin_id cs "engine" "").1 = true ↔
      ((claimMatchesIdPattern cs = true ∨
        (cs.getLast? = some '\n' ∧ claimMatchesIdPattern cs.dropLast = true)) ∧
       cs ∉ RESERVED_ENGINE_IDS)) ∧
    ((validate_plugin_id cs "engine" "").2 = none ↔
      (validate_plugin_id cs "engine" "").1 = true) := by
  constructor
  · rw [← is_valid_id_iff]
    unfold validate_plugin_id
    by_cases hv : is_valid_id cs = true
    · rw [if_neg (by simp [hv])]
      by_cases hr : is_reserved_id cs "engine" = true
      · rw [if_pos hr]
        simp [is_reserved_id] at hr
        simp [hv, hr]
      · rw [if_neg hr]
        simp [is_reserved_id] at hr
        simp [hv, hr]
    · rw [if_pos (by simp [Bool.not_eq_true] at hv; simp [hv])]
      simp [hv]
  · unfold validate_plugin_id
    by_cases hv : is_valid_id cs = true
    · rw [if_neg (by simp [hv])]
      by_cases hr : is_reserved_id cs "engine" = true
      · rw [if_pos hr]; simp
      · rw [if_neg hr]; simp
    · rw [if_pos (by simp [Bool.not_eq_true] at hv; simp [hv])]
      simp

/-! ## Config migrations (config_migrations.py)

The raw TOML config is embedded as an association list from section name to
value, where a value is an opaque scalar or a section table whose field
values are opaque scalars. The migrations never inspect the values they
move, so deeper nesting (tables inside the repos section, say) behaves
identically to an opaque value. TOML guarantees that the workspace and
telegram sections, when present, are tables. -/

/-- An opaque TOML field value. -/
abbrev FieldVal := Nat

/-- A section table: field name to opaque value. -/
abbrev Tbl := List (String × FieldVal)

/-- A top-level TOML value: opaque scalar or section table. -/
inductive TomlVal where
  | atom : FieldVal → TomlVal
  | table : Tbl → TomlVal
deriving DecidableEq

/-- A raw parsed config: top-level key to value. -/
abbrev Config := List (String × TomlVal)

/-- config.get(k, \x7b\x7d) for a section expected to be a table. -/
def getTable (cfg : Config) (k : String) : Tbl :=
  match alookup cfg k with
  | some (.table t) => t
  | _ => []

/-- Write a section table back into the config: Python mutates the table in
place through the reference held by the dict, so the write only has an
effect when the key is present. -/
def setTable (cfg : Config) (k : String) (t : Tbl) : Config :=
  if (alookup cfg k).isSome then aset cfg k (.table t) else cfg

/-- The repos-to-folders migration: delete repos when folders already
exists, else move the repos value to a new folders key. -/
def migrate_repos_to_folders (cfg : Config) : Bool × Config :=
  match alookup cfg "repos" with
  | none => (false, cfg)
  | some v =>
    if (alookup cfg "folders").isSome then (true, aerase cfg "repos")
    else (true, aset (aerase cfg "repos") "folders" v)

/-- The legacy-telegram migration: move bot_token and telegram_group_id
from the workspace section into the telegram section (as bot_token and
chat_id), never overwriting fields already present there; when the
telegram section already has both fields, just drop the legacy ones. -/
def migrate_legacy_telegram (cfg : Config) : Bool × Config :=
  let workspace := getTable cfg "workspace"
  let has_legacy_bot_token := (alookup workspace "bot_token").isSome
  let has_legacy_group_id := (alookup workspace "telegram_group_id").isSome
  if !has_legacy_bot_token && !has_legacy_group_id then (false, cfg)
  else
    let telegram := getTable cfg "telegram"
    if (alookup telegram "bot_token").isSome &&
        (alookup telegram "chat_id").isSome then
      (true, setTable cfg "workspace"
        (aerase (aerase workspace "bot_token") "telegram_group_id"))
    else
      let cfg1 := if (alookup cfg "telegram").isSome then cfg
        else aset cfg "telegram" (.table [])
      let telegram1 := getTable cfg1 "telegram"
      let move_bt := has_legacy_bot_token &&
        !(alookup telegram1 "bot_token").isSome
      let workspace1 := if move_bt then aerase workspace "bot_token"
        else workspace
      let telegram2 := if move_bt then
          aset telegram1 "bot_token" ((alookup workspace "bot_token").getD 0)
        else telegram1
      let move_gid := has_legacy_group_id &&
        !(alookup telegram2 "chat_id").isSome
      let workspace2 := if move_gid then aerase workspace1 "telegram_group_id"
        else workspace1
      let telegram3 := if move_gid then
          aset telegram2 "chat_id"
            ((alookup workspace1 "telegram_group_id").getD 0)
        else telegram2
      (true, setTable (setTable cfg1 "workspace" workspace2)
        "telegram" telegram3)

/-- migrate_config: apply both migrations in order and collect the names of
the ones that reported a change. -/
def migrate_config (cfg : Config) : List String × Config :=
  let r1 := migrate_repos_to_folders cfg
  let a1 := if r1.1 then ["repos-to-folders"] else []
  let r2 := migrate_legacy_telegram r1.2
  let a2 := if r2.1 then ["legacy-telegram"] else []
  (a1 ++ a2, r2.2)

/-- Outcome of migrate_config_file: applied migration names, whether a
backup was created, and the resulting file content. -/
structure MigrateFileOutcome where
  applied : List String
  backup_created : Bool
  written : Config
deriving DecidableEq

/-- migrate_config_file on the success path (file exists, read and write
succeed): run migrate_config; when the applied list is non-empty, create a
backup and write the new config, otherwise touch nothing. -/
def migrate_config_file (cfg : Config) : MigrateFileOutcome :=
  let r := migrate_config cfg
  if r.1.isEmpty then
    { applied := r.1, backup_created := false, written := cfg }
  else
    { applied := r.1, backup_created := true, written := r.2 }

/-- A config whose workspace section holds both legacy telegram fields
while the telegram section already has chat_id but not bot_token. -/
def legacyPartialConfig : Config :=
  [("workspace", .table [("bot_token", 1), ("telegram_group_id", 2)]),
   ("telegram", .table [("chat_id", 3)])]

/-- C7 counterexample: migrate_config is not idempotent. On a config where
the telegram section already has chat_id, the first pass moves only
bot_token and leaves telegram_group_id in the workspace section; the second
pass changes the dict again (and reports the migration as applied again),
so applying twice differs from applying once. -/
theorem migrate_config_not_idempotent_counterexample :
    (migrate_config (migrate_config legacyPartialConfig).2).2 ≠
      (migrate_config legacyPartialConfig).2 ∧
    (migrate_config (migrate_config legacyPartialConfig).2).1 =
      ["legacy-telegram"] := by
  decide

/-- C7 amended: on an already-migrated config (no repos section, no legacy
telegram fields under workspace) migrate_config returns an empty applied
list and leaves the dict unchanged, and migrate_config_file creates no
backup and rewrites nothing; but applying migrate_config twice is not in
general the same as applying it once. -/
theorem migrate_config_migrated_noop (cfg : Config)
    (h1 : alookup cfg "repos" = none)
    (h2 : alookup (getTable cfg "workspace") "bot_token" = none)
    (h3 : alookup (getTable cfg "workspace") "telegram_group_id" = none) :
    migrate_config cfg = ([], cfg) ∧
    (migrate_config_file cfg).backup_created = false ∧
    (migrate_config_file cfg).written = cfg := by
  have hr : migrate_repos_to_folders cfg = (false, cfg) := by
    unfold migrate_repos_to_folders
    rw [h1]
  have hl : migrate_legacy_telegram cfg = (false, cfg) := by
    simp [migrate_legacy_telegram, h2, h3]
  have hm : migrate_config cfg = ([], cfg) := by
    simp [migrate_config, hr, hl]
  exact ⟨hm, by simp [migrate_config_file, hm], by simp [migrate_config_file, hm]⟩

/-- A config that is already migrated: folders section, no repos, no legacy
telegram fields. -/
def migratedConfig : Config :=
  [("workspace", .table [("name", 9)]), ("folders", .table [("app", 4)])]

/-- Witness for C7's amended theorem at a concrete migrated config. -/
theorem migrate_config_migrated_noop_witness :
    migrate_config migratedConfig = ([], migratedConfig) ∧
    (migrate_config_file migratedConfig).backup_created = false ∧
    (migrate_config_file migratedConfig).written = migratedConfig :=
  migrate_config_migrated_noop migratedConfig (by decide) (by decide) (by decide)

/-! ## Working-directory discipline of handle_workspace_message
(workspace/bridge.py)

The function's body (progress messages, runner execution, result delivery)
is abstracted to its three exit paths: normal completion, a runner
exception, and cancellation; none of them changes the process working
directory. What is embedded is the cwd skeleton around the body: the
optional os.chdir(cwd) guarded by an early error return, and the finally
block that chdirs back to the saved original directory (itself wrapped in
a swallow-everything except). os.chdir succeeds exactly on directories the
valid predicate accepts. -/

/-- The three ways the body of handle_workspace_message can finish. -/
inductive RunnerOutcome where
  | completed
  | failed
  | cancelled
deriving DecidableEq

/-- Process state for the cwd skeleton: the current working directory and
the trace of successful chdir calls. -/
structure CwdState where
  dir : String
  chdirs : List String
deriving DecidableEq

/-- os.chdir: succeed (recording the change) when the target is a valid
directory, else leave the state unchanged and report failure. -/
def osChdir (valid : String → Bool) (target : String) (s : CwdState) :
    Bool × CwdState :=
  if valid target then
    (true, { dir := target, chdirs := s.chdirs ++ [target] })
  else
    (false, s)

/-- The cwd skeleton of handle_workspace_message: when cwd is None the body
runs without any chdir; otherwise the original directory is saved, the
chdir is attempted (failure sends an error and returns early), the body
runs to its outcome, and the finally block restores the original directory,
ignoring restore errors. -/
def handle_workspace_message_cwd (valid : String → Bool) (cwd : Option String)
    (outcome : RunnerOutcome) (s : CwdState) : CwdState :=
  match cwd with
  | none => s
  | some d =>
    let original_cwd := s.dir
    let ch := osChdir valid d s
    if ch.1 then
      let after_body :=
        match outcome with
        | .completed => ch.2
        | .failed => ch.2
        | .cancelled => ch.2
      (osChdir valid original_cwd after_body).2
    else
      ch.2

/-- C8: when a cwd is given and the directory change succeeds, the working
directory is restored to its original value on every exit path of
handle_workspace_message (normal completion, runner error, cancellation);
when cwd is None no chdir ever happens. The restore needs the original
directory to still be valid, which holds for the directory the process was
in at entry. -/
theorem handle_workspace_message_restores_cwd (valid : String → Bool)
    (cwd : Option String) (outcome : RunnerOutcome) (s : CwdState) :
    (∀ d : String, cwd = some d → valid d = true → valid s.dir = true →
      (handle_workspace_message_cwd valid cwd outcome s).dir = s.dir) ∧
    (cwd = none →
      handle_workspace_message_cwd valid cwd outcome s = s) := by
  constructor
  · intro d hcwd hd horig
    subst hcwd
    unfold handle_workspace_message_cwd
    simp only [osChdir, if_pos hd]
    cases outcome <;> simp [osChdir, horig]
  · intro hcwd
    subst hcwd
    rfl

/-- Witness for C8 at a concrete state: with all directories valid, the
directory after a cancelled run under cwd repo is the original home. -/
theorem handle_workspace_message_restores_cwd_witness :
    (handle_workspace_message_cwd (fun _ => true) (some "repo")
      RunnerOutcome.cancelled { dir := "home", chdirs := [] }).dir = "home" :=
  (handle_workspace_message_restores_cwd (fun _ => true) (some "repo")
    RunnerOutcome.cancelled { dir := "home", chdirs := [] }).1
    "repo" rfl rfl rfl

/-! ## Topic-namespaced resume keys (workspace/bridge.py) -/

/-- One decimal digit character, as produced by str() of a non-negative
int. -/
def digitChar (k : Nat) : Char :=
  match k with
  | 0 => '0' | 1 => '1' | 2 => '2' | 3 => '3' | 4 => '4'
  | 5 => '5' | 6 => '6' | 7 => '7' | 8 => '8' | _ => '9'

/-- The decimal digit string of a natural number (Python str for n >= 0). -/
def natDigits (n : Nat) : PyStr :=
  if _h : n < 10 then [digitChar n]
  else natDigits (n / 10) ++ [digitChar (n % 10)]
decreasing_by exact Nat.div_lt_self (by omega) (by omega)

/-- Python str(int): a minus sign then the digits for negatives, else the
digits. -/
def intRepr (n : Int) : PyStr :=
  if n < 0 then '-' :: natDigits (-n).toNat else natDigits n.toNat

/-- A decimal digit character. -/
def isDigitChar (c : Char) : Bool := '0' ≤ c && c ≤ '9'

/-- The value of a digit string read left to right. -/
def digitsVal (cs : PyStr) : Nat :=
  cs.foldl (fun a c => a * 10 + (c.toNat - 48)) 0

/-- Python int() on the strings this codec can produce: an optional minus
sign followed by decimal digits, rejecting anything else. Python's extra
tolerance (surrounding whitespace, a plus sign, underscores between
digits) is not modelled; the round-trip only ever parses canonical str()
output. -/
def pyParseInt (cs : PyStr) : Option Int :=
  match cs with
  | '-' :: rest =>
    if !rest.isEmpty && rest.all isDigitChar then
      some (-(digitsVal rest : Int))
    else none
  | _ =>
    if !cs.isEmpty && cs.all isDigitChar then some ((digitsVal cs : Int))
    else none

/-- Python s.split(sep, 1): the parts before and after the first separator,
or nothing when the separator is absent (one part). -/
def splitOnce (sep : Char) : PyStr → Option (PyStr × PyStr)
  | [] => none
  | c :: rest =>
    if c = sep then some ([], rest)
    else
      match splitOnce sep rest with
      | some (a, b) => some (c :: a, b)
      | none => none

/-- The _make_topic_resume_key function: topic-prefixed for truthy topic
ids (Python truthiness: 0 and None both select general). -/
def make_topic_resume_key (topic_id : Option Int) (resume : PyStr) : PyStr :=
  let pre := match topic_id with
    | some n =>
      if n ≠ 0 then ['t', 'o', 'p', 'i', 'c', ':'] ++ intRepr n
      else ['g', 'e', 'n', 'e', 'r', 'a', 'l']
    | none => ['g', 'e', 'n', 'e', 'r', 'a', 'l']
  pre ++ (':' :: resume)

/-- The _parse_topic_resume_key function: topic-prefixed keys split once on
a colon and parse the topic id (falling back to general on a malformed
id); general-prefixed keys drop the prefix; everything else is treated as
general. -/
def parse_topic_resume_key (key : PyStr) : Option Int × PyStr :=
  if (['t', 'o', 'p', 'i', 'c', ':'] : PyStr).isPrefixOf key then
    let rest := key.drop 6
    match splitOnce ':' rest with
    | some (p0, p1) =>
      match pyParseInt p0 with
      | some n => (some n, p1)
      | none => (none, key)
    | none => (none, key)
  else if (['g', 'e', 'n', 'e', 'r', 'a', 'l', ':'] : PyStr).isPrefixOf key then
    (none, key.drop 8)
  else
    (none, key)

theorem isDigitChar_digitChar (k : Nat) : isDigitChar (digitChar k) = true := by
  unfold digitChar
  split <;> decide

theorem digitChar_toNat (k : Nat) (h : k < 10) :
    (digitChar k).toNat = 48 + k := by
  interval_cases k <;> decide

theorem natDigits_ne_nil (n : Nat) : natDigits n ≠ [] := by
  unfold natDigits
  split
  · simp
  · simp

theorem natDigits_all_digit (n : Nat) :
    ∀ c ∈ natDigits n, isDigitChar c = true := by
  induction n using Nat.strong_induction_on with
  | _ n ih =>
    intro c hc
    unfold natDigits at hc
    split at hc
    · simp at hc
      rw [hc]
      exact isDigitChar_digitChar _
    · rename_i h
      rcases List.mem_append.mp hc with hc | hc
      · exact ih (n / 10) (Nat.div_lt_self (by omega) (by omega)) c hc
      · simp at hc
        rw [hc]
        exact isDigitChar_digitChar _

theorem digitsVal_natDigits (n : Nat) : digitsVal (natDigits n) = n := by
  induction n using Nat.strong_induction_on with
  | _ n ih =>
    unfold natDigits
    split
    · rename_i h
      show List.foldl _ 0 [digitChar n] = n
      simp [digitsVal, digitChar_toNat n h]
    · rename_i h
      have hrec := ih (n / 10) (Nat.div_lt_self (by omega) (by omega))
      unfold digitsVal
      rw [List.foldl_append]
      show (digitsVal (natDigits (n / 10))) * 10 +
        ((digitChar (n % 10)).toNat - 48) = n
      rw [hrec, digitChar_toNat _ (Nat.mod_lt _ (by omega))]
      omega

theorem pyParseInt_natDigits (m : Nat) :
    pyParseInt (natDigits m) = some (m : Int) := by
  have hne := natDigits_ne_nil m
  have hall := natDigits_all_digit m
  cases hd : natDigits m with
  | nil => exact absurd hd hne
  | cons c rest =>
    have hc : isDigitChar c = true := by
      apply hall
      rw [hd]
      exact List.mem_cons_self _ _
    have hcm : c ≠ '-' := by
      intro h
      rw [h] at hc
      exact absurd hc (by decide)
    have hallcr : (c :: rest).all isDigitChar = true := by
      rw [← hd]
      rw [List.all_eq_true]
      exact hall
    unfold pyParseInt
    split
    · rename_i heq
      injection heq with h1 h2
      exact absurd h1 hcm
    · rw [if_pos (by simp [hallcr])]
      rw [← hd, digitsVal_natDigits]

theorem isPrefixOf_append_self (l t : PyStr) : l.isPrefixOf (l ++ t) = true := by
  induction l with
  | nil => cases t <;> rfl
  | cons c cs ih => simp [List.isPrefixOf, ih]

theorem splitOnce_append (sep : Char) (a b : PyStr)
    (ha : ∀ c ∈ a, c ≠ sep) :
    splitOnce sep (a ++ sep :: b) = some (a, b) := by
  induction a with
  | nil => simp [splitOnce]
  | cons c cs ih =>
    have hc : c ≠ sep := ha c (List.mem_cons_self _ _)
    show splitOnce sep (c :: (cs ++ sep :: b)) = some (c :: cs, b)
    unfold splitOnce
    rw [if_neg hc, ih (fun x hx => ha x (List.mem_cons_of_mem _ hx))]

/-- C10: topic-namespaced resume keys round-trip: for every positive (or
absent) topic id and every resume string, parsing the made key returns
exactly the topic id and the resume string. -/
theorem topic_resume_key_roundtrip (topic_id : Option Int) (resume : PyStr)
    (h : match topic_id with | some n => 0 < n | none => True) :
    parse_topic_resume_key (make_topic_resume_key topic_id resume) =
      (topic_id, resume) := by
  cases topic_id with
  | none =>
    have hkey : make_topic_resume_key none resume =
        ['g', 'e', 'n', 'e', 'r', 'a', 'l', ':'] ++ resume := by
      show (['g', 'e', 'n', 'e', 'r', 'a', 'l'] : PyStr) ++ (':' :: resume) = _
      simp
    rw [hkey]
    unfold parse_topic_resume_key
    have hnp : (['t', 'o', 'p', 'i', 'c', ':'] : PyStr).isPrefixOf
        (['g', 'e', 'n', 'e', 'r', 'a', 'l', ':'] ++ resume) = false := rfl
    rw [if_neg (by rw [hnp]; exact Bool.false_ne_true)]
    rw [if_pos (isPrefixOf_append_self _ _)]
    rw [List.drop_left' (by rfl :
      (['g', 'e', 'n', 'e', 'r', 'a', 'l', ':'] : PyStr).length = 8)]
  | some n =>
    have hn : 0 < n := h
    have hkey : make_topic_resume_key (some n) resume =
        ['t', 'o', 'p', 'i', 'c', ':'] ++
          (natDigits n.toNat ++ (':' :: resume)) := by
      show ((if n ≠ 0 then ['t', 'o', 'p', 'i', 'c', ':'] ++ intRepr n
          else ['g', 'e', 'n', 'e', 'r', 'a', 'l']) : PyStr) ++ (':' :: resume)
        = _
      rw [if_pos (by omega : n ≠ 0)]
      unfold intRepr
      rw [if_neg (by omega : ¬ n < 0)]
      simp
    rw [hkey]
    unfold parse_topic_resume_key
    rw [if_pos (isPrefixOf_append_self _ _)]
    have hdrop : (['t', 'o', 'p', 'i', 'c', ':'] ++
        (natDigits n.toNat ++ (':' :: resume))).drop 6 =
        natDigits n.toNat ++ (':' :: resume) :=
      List.drop_left' (by rfl : (['t', 'o', 'p', 'i', 'c', ':'] : PyStr).length = 6)
    have hnc : ∀ c ∈ natDigits n.toNat, c ≠ ':' := by
      intro c hc hcolon
      have := natDigits_all_digit n.toNat c hc
      rw [hcolon] at this
      exact absurd this (by decide)
    simp only [hdrop, splitOnce_append ':' _ _ hnc, pyParseInt_natDigits,
      Int.toNat_of_nonneg (by omega : (0 : Int) ≤ n)]

/-- Witness for C10 at topic id 5 and a resume value containing a colon. -/
theorem topic_resume_key_roundtrip_witness :
    parse_topic_resume_key (make_topic_resume_key (some 5) [':', 'r']) =
      (some 5, [':', 'r']) :=
  topic_resume_key_roundtrip (some 5) [':', 'r'] (by decide)
